import Mathlib

set_option maxRecDepth 20000
set_option linter.unusedVariables false

/-!
Shallow embedding of the TravelGraph flight-assistant pipeline
(`utility_functions.py`, `graph_nodes.py`, `state_definitions.py`).

Strings are modelled as Lean `String` / `List Char`; Python `None` as
`Option.none`; Python truthiness of `str` / `Optional` fields is modelled
explicitly.  External HTTP and LLM calls are modelled as explicit outcome
parameters; nodes that perform network traffic additionally return the
number of network calls they issue, so that call-count properties can be
stated.  Python `datetime` is modelled by an exact proleptic-Gregorian
calendar with the CPython year range 1..9999 (`datetime.MINYEAR` /
`MAXYEAR`); exceeding the range on date arithmetic models `OverflowError`.
-/

namespace TravelGraph

/-! ## Character classes (ASCII, as used by the regexes in the source) -/

/-- Python regex word character `\w`, restricted to ASCII (all inputs of
interest are ASCII): letters, digits and underscore. -/
def wordChar (c : Char) : Bool := c.isAlphanum || c = '_'

/-- The char after a candidate match must not be a word character for the
trailing `\b` of the pattern to hold. -/
def noWordHead : List Char → Bool
  | [] => true
  | c :: _ => !(wordChar c)

/-- Python `str.upper` on ASCII letters (identity elsewhere). -/
def pyUpperChar (c : Char) : Char :=
  if 'a' ≤ c && c ≤ 'z' then Char.ofNat (c.toNat - 32) else c

/-- Python `str.lower` on ASCII letters (identity elsewhere). -/
def pyLowerChar (c : Char) : Char :=
  if 'A' ≤ c && c ≤ 'Z' then Char.ofNat (c.toNat + 32) else c

/-- Python regex `\s` (ASCII fragment): space, tab, newline, carriage
return, vertical tab, form feed. -/
def pyIsSpace (c : Char) : Bool :=
  c = ' ' || c = '\t' || c = '\n' || c = '\r' || c.toNat = 11 || c.toNat = 12

/-! ## The concrete regex matchers

Each matcher decides whether one of the source's regular expressions
matches at the head of the given suffix (the leading `\b` is checked by
the scanner below, since it depends on the previous character).  On
success it returns the matched characters and the remaining suffix.
Because each pattern consists of bounded digit/letter runs separated by
fixed punctuation, the usual greedy-with-backtracking regex semantics is
deterministic here, which the definitions below implement directly:
a quantified digit run must be the maximal run at that position, of the
admissible length, followed by the required separator or boundary. -/

/-- Matcher for `\d{4}-\d{2}-\d{2}\b` (pattern `YYYY-MM-DD`). -/
def matchYMD (cs : List Char) : Option (List Char × List Char) :=
  if (cs.takeWhile Char.isDigit).length = 4 then
    match cs.dropWhile Char.isDigit with
    | '-' :: r2 =>
      if (r2.takeWhile Char.isDigit).length = 2 then
        match r2.dropWhile Char.isDigit with
        | '-' :: r4 =>
          if (r4.takeWhile Char.isDigit).length = 2
              && noWordHead (r4.dropWhile Char.isDigit) then
            some (cs.takeWhile Char.isDigit ++ '-' :: r2.takeWhile Char.isDigit
                    ++ '-' :: r4.takeWhile Char.isDigit,
                  r4.dropWhile Char.isDigit)
          else none
        | _ => none
      else none
    | _ => none
  else none

/-- Matcher for `\d{1,2}X\d{1,2}X\d{4}\b` where `X` is the separator:
`sep = '/'` gives the `MM/DD/YYYY` pattern, `sep = '-'` the `MM-DD-YYYY`
pattern of the source. -/
def matchMDY (sep : Char) (cs : List Char) : Option (List Char × List Char) :=
  if (cs.takeWhile Char.isDigit).length = 1 || (cs.takeWhile Char.isDigit).length = 2 then
    match cs.dropWhile Char.isDigit with
    | c :: r2 =>
      if c = sep then
        if (r2.takeWhile Char.isDigit).length = 1 || (r2.takeWhile Char.isDigit).length = 2 then
          match r2.dropWhile Char.isDigit with
          | c2 :: r4 =>
            if c2 = sep then
              if (r4.takeWhile Char.isDigit).length = 4
                  && noWordHead (r4.dropWhile Char.isDigit) then
                some (cs.takeWhile Char.isDigit ++ sep :: r2.takeWhile Char.isDigit
                        ++ sep :: r4.takeWhile Char.isDigit,
                      r4.dropWhile Char.isDigit)
              else none
            else none
          | [] => none
        else none
      else none
    | [] => none
  else none

/-- Matcher for `[A-Z]{3}\b` (the airport-code pattern `\b[A-Z]{3}\b`,
leading boundary handled by the scanner). -/
def matchUpper3 (cs : List Char) : Option (List Char × List Char) :=
  match cs with
  | a :: b :: c :: rest =>
    if a.isUpper && b.isUpper && c.isUpper && noWordHead rest then
      some ([a, b, c], rest)
    else none
  | _ => none

/-- Worker for `re.findall`: walks the text left to right, attempting the
matcher at every position where the leading `\b` of the pattern holds
(tracked by the flag: true when the previous character is absent or not a
word character; every pattern here begins with a word character, so no
match can start where the flag is false).  After a match, scanning
resumes at the first unconsumed character; since every match here ends in
a word character, the boundary flag there is false.  Fuel is an upper
bound on the number of steps (each step consumes at least one
character). -/
def scanAux (m : List Char → Option (List Char × List Char)) :
    Nat → Bool → List Char → List (List Char)
  | 0, _, _ => []
  | _ + 1, _, [] => []
  | fuel + 1, bnd, c :: rest =>
    if bnd then
      match m (c :: rest) with
      | some (w, r) => w :: scanAux m fuel false r
      | none => scanAux m fuel (!(wordChar c)) rest
    else scanAux m fuel (!(wordChar c)) rest

/-- `re.findall(pattern, s)` for the patterns above. -/
def findall (m : List Char → Option (List Char × List Char))
    (s : List Char) : List (List Char) :=
  scanAux m (s.length + 1) true s

/-! ## Dates: `strptime`, validity, `strftime`, `timedelta` arithmetic -/

/-- Numeric value of a digit string. -/
def digitsToNat (cs : List Char) : Nat :=
  cs.foldl (fun a c => a * 10 + (c.toNat - 48)) 0

/-- Gregorian leap year, as implemented by `datetime`. -/
def isLeapYear (y : Nat) : Bool :=
  (y % 4 == 0 && y % 100 != 0) || y % 400 == 0

/-- Days in a month, as implemented by `datetime`. -/
def daysInMonth (y m : Nat) : Nat :=
  if m = 2 then (if isLeapYear y then 29 else 28)
  else if m = 4 ∨ m = 6 ∨ m = 9 ∨ m = 11 then 30
  else 31

/-- A calendar date `datetime` accepts: year 1..9999 (the upper bound is
enforced by the 4-digit `%Y` parse), month 1..12, day within the month. -/
def validDate (y m d : Nat) : Bool :=
  1 ≤ y && 1 ≤ m && m ≤ 12 && 1 ≤ d && d ≤ daysInMonth y m

/-- A parsed date: `(year, month, day)`. -/
abbrev Date := Nat × Nat × Nat

/-- All characters are digits. -/
def allDigits (cs : List Char) : Bool := cs.all Char.isDigit

/-- `datetime.strptime(s, "%Y-%m-%d")`: exactly three dash-separated
fields, 4-digit year (CPython `%Y` matches exactly four digits), 1- or
2-digit month and day (`%m`/`%d` accept an optional leading zero), the
whole string consumed, and the values a valid calendar date. -/
def strptimeYMD (cs : List Char) : Option Date :=
  match cs.splitOn '-' with
  | [ys, ms, ds] =>
    if ys.length = 4 && allDigits ys
        && (ms.length = 1 || ms.length = 2) && allDigits ms
        && (ds.length = 1 || ds.length = 2) && allDigits ds
        && validDate (digitsToNat ys) (digitsToNat ms) (digitsToNat ds) then
      some (digitsToNat ys, digitsToNat ms, digitsToNat ds)
    else none
  | _ => none

/-- `datetime.strptime(s, "%m/%d/%Y")` (for `sep = '/'`) and
`datetime.strptime(s, "%m-%d-%Y")` (for `sep = '-'`). -/
def strptimeMDY (sep : Char) (cs : List Char) : Option Date :=
  match cs.splitOn sep with
  | [ms, ds, ys] =>
    if (ms.length = 1 || ms.length = 2) && allDigits ms
        && (ds.length = 1 || ds.length = 2) && allDigits ds
        && ys.length = 4 && allDigits ys
        && validDate (digitsToNat ys) (digitsToNat ms) (digitsToNat ds) then
      some (digitsToNat ys, digitsToNat ms, digitsToNat ds)
    else none
  | _ => none

/-- Two-digit zero-padded decimal rendering (`%m`, `%d`). -/
def pad2 (n : Nat) : List Char :=
  [Char.ofNat (48 + (n / 10) % 10), Char.ofNat (48 + n % 10)]

/-- Four-digit zero-padded decimal rendering (`%Y`). -/
def pad4 (n : Nat) : List Char :=
  [Char.ofNat (48 + (n / 1000) % 10), Char.ofNat (48 + (n / 100) % 10),
   Char.ofNat (48 + (n / 10) % 10), Char.ofNat (48 + n % 10)]

/-- `datetime.strftime("%Y-%m-%d")`. -/
def fmtDate : Date → List Char
  | (y, m, d) => pad4 y ++ '-' :: pad2 m ++ '-' :: pad2 d

/-- The day after a given calendar date (unbounded years). -/
def nextDay : Date → Date
  | (y, m, d) =>
    if d < daysInMonth y m then (y, m, d + 1)
    else if m < 12 then (y, m + 1, 1)
    else (y + 1, 1, 1)

/-- `date + timedelta(days = n)` in the unbounded calendar. -/
def addDays : Nat → Date → Date
  | 0, dt => dt
  | n + 1, dt => addDays n (nextDay dt)

/-! ## The request formatter (`format_flight_offers_body`) -/

/-- Failure of date handling inside the formatter: `unparseable` models
the `ValueError` CPython `strptime` raises on a string that does not
parse as `%Y-%m-%d`; `overflow` models the `OverflowError` raised by
`datetime + timedelta` when the result would pass year 9999
(`datetime.MAXYEAR`). -/
inductive DateError where
  | unparseable (input : String)
  | overflow
deriving DecidableEq

/-- `str(e)` of the two date exceptions (messages abbreviated; only the
error kind matters to the specification). -/
def dateErrorMsg : DateError → String
  | DateError.unparseable s => "time data " ++ s ++ " does not match format %Y-%m-%d"
  | DateError.overflow => "date value out of range"

structure DepartureDateTimeRange where
  date : String
  time : String
deriving DecidableEq

structure OriginDestination where
  id : String
  originLocationCode : String
  destinationLocationCode : String
  departureDateTimeRange : DepartureDateTimeRange
deriving DecidableEq

structure TravelerSpec where
  id : String
  travelerType : String
deriving DecidableEq

structure CabinRestriction where
  cabin : String
  coverage : String
  originDestinationIds : List String
deriving DecidableEq

structure FlightFilters where
  cabinRestrictions : List CabinRestriction
deriving DecidableEq

structure SearchCriteria where
  maxFlightOffers : Nat
  flightFilters : FlightFilters
deriving DecidableEq

/-- The Amadeus request body built by `format_flight_offers_body`. -/
structure FlightOffersBody where
  currencyCode : String
  originDestinations : List OriginDestination
  travelers : List TravelerSpec
  sources : List String
  searchCriteria : SearchCriteria
deriving DecidableEq

/-- `format_flight_offers_body` from `utility_functions.py`.  The Python
defaults (`departure_time = "10:00:00"`, `traveler_type = "ADULT"`,
`max_flight_offers = 3`, `cabin = "ECONOMY"`, `coverage =
"MOST_SEGMENTS"`, `sources = None`, `trip_type = "one_way"`,
`duration = None`) are written out explicitly at each call site.
`duration` is a natural number: the only producer in the program is the
`(\d+)\s*day` extraction, which yields a non-negative integer. -/
def format_flight_offers_body
    (currency_code origin_location_code destination_location_code
      departure_date departure_time traveler_type : String)
    (max_flight_offers : Nat) (cabin coverage : String)
    (sources : Option (List String)) (trip_type : String)
    (duration : Option Nat) : Except DateError FlightOffersBody :=
  let src := match sources with
    | none => ["GDS"]
    | some l => l
  let outbound : OriginDestination :=
    { id := "1",
      originLocationCode := origin_location_code,
      destinationLocationCode := destination_location_code,
      departureDateTimeRange := { date := departure_date, time := departure_time } }
  let legsE : Except DateError (List OriginDestination) :=
    if trip_type = "round_trip" then
      match duration with
      | some k =>
        match strptimeYMD departure_date.data with
        | none => Except.error (DateError.unparseable departure_date)
        | some dep =>
          let ret := addDays k dep
          if ret.1 ≤ 9999 then
            Except.ok [outbound,
              { id := "2",
                originLocationCode := destination_location_code,
                destinationLocationCode := origin_location_code,
                departureDateTimeRange :=
                  { date := String.mk (fmtDate ret), time := "10:00:00" } }]
          else Except.error DateError.overflow
      | none => Except.ok [outbound]
    else Except.ok [outbound]
  match legsE with
  | Except.error e => Except.error e
  | Except.ok legs =>
    Except.ok
      { currencyCode := currency_code,
        originDestinations := legs,
        travelers := [{ id := "1", travelerType := traveler_type }],
        sources := src,
        searchCriteria :=
          { maxFlightOffers := max_flight_offers,
            flightFilters :=
              { cabinRestrictions :=
                  [{ cabin := cabin, coverage := coverage,
                     originDestinationIds := legs.map (fun od => od.id) }] } } }

/-! ## Slot extraction (`extract_flight_info`) -/

/-- Python substring test `needle in hay`. -/
def isSubstr : List Char → List Char → Bool
  | n, [] => n.isEmpty
  | n, c :: rest => n.isPrefixOf (c :: rest) || isSubstr n rest

/-- Substring test with a string-literal needle on a char-list haystack. -/
def containsWord (needle : String) (hay : List Char) : Bool :=
  isSubstr needle.data hay

/-- One attempt of `re.search(r"(\d+)\s*day", s)` at the current
position: a non-empty maximal digit run, optional whitespace, then the
literal `day`; returns the value of the digit group.  (As with the date
patterns, greedy matching with backtracking is deterministic here.) -/
def matchDurAt (cs : List Char) : Option Nat :=
  if (cs.takeWhile Char.isDigit).length = 0 then none
  else
    if ("day".data.isPrefixOf ((cs.dropWhile Char.isDigit).dropWhile pyIsSpace)) then
      some (digitsToNat (cs.takeWhile Char.isDigit))
    else none

/-- `re.search(r"(\d+)\s*day", s)`: leftmost successful start position
wins. -/
def searchDur : List Char → Option Nat
  | [] => none
  | c :: rest =>
    match matchDurAt (c :: rest) with
    | some n => some n
    | none => searchDur rest

/-- The content-directed `strptime` dispatch of `extract_flight_info`
(lines 95-100 of `utility_functions.py`): a slash means `%m/%d/%Y`, else
a dash with a first segment of at most two characters means `%m-%d-%Y`,
else `%Y-%m-%d`.  `len(s.split(sep)[0])` is the length of the longest
separator-free prefix. -/
def tryParseDate (cs : List Char) : Option Date :=
  if cs.any (fun x => x = '/') then strptimeMDY '/' cs
  else if cs.any (fun x => x = '-')
      && (cs.takeWhile (fun x => !(x = '-'))).length ≤ 2 then
    strptimeMDY '-' cs
  else strptimeYMD cs

/-- The `date_patterns` list of the source, in order: `YYYY-MM-DD`,
`MM/DD/YYYY`, `MM-DD-YYYY`. -/
def date_patterns : List (List Char → Option (List Char × List Char)) :=
  [matchYMD, matchMDY '/', matchMDY '-']

/-- The date-extraction loop of `extract_flight_info`: for each pattern
in order, if `findall` is non-empty, try to parse its first match; on
success normalize with `strftime("%Y-%m-%d")` and stop, on a parse
failure fall through to the next pattern. -/
def dateLoop : List (List Char → Option (List Char × List Char)) → List Char → Option (List Char)
  | [], _ => none
  | p :: ps, u =>
    match findall p u with
    | [] => dateLoop ps u
    | d0 :: _ =>
      match tryParseDate d0 with
      | some d => some (fmtDate d)
      | none => dateLoop ps u

/-- The partial mapping returned by `extract_flight_info`: a key absent
from the Python dict is `none`. -/
structure ExtractedInfo where
  origin : Option String
  destination : Option String
  departure_date : Option String
  trip_type : Option String
  duration : Option Nat
  cabin_class : Option String
deriving DecidableEq

/-! ## Conversation state (`state_definitions.py`) -/

/-- One `{role, content}` chat message. -/
structure Message where
  role : String
  content : String
deriving DecidableEq

/-- A single raw flight offer / JSON value. -/
inductive Json where
  | null
  | bool (b : Bool)
  | num (n : Int)
  | str (s : String)
  | arr (elems : List Json)
  | obj (fields : List (String × Json))

/-- `FlightAssistantState`.  `trip_type`, `cabin_class`, `currency` and
`current_step` are plain strings (their dataclass defaults are
`"one_way"`, `"ECONOMY"`, `"USD"`, `"greeting"`), the `Optional` fields
are `Option`; the empty string models a falsy (unset) string value.
`token_expires_at` (a Unix timestamp, `time.time()`-based) is modelled as
an integer; `duration` as in `format_flight_offers_body`. -/
structure FlightAssistantState where
  origin : Option String
  destination : Option String
  departure_date : Option String
  return_date : Option String
  trip_type : String
  duration : Option Nat
  travelers : Nat
  cabin_class : String
  currency : String
  amadeus_token : Option String
  token_expires_at : Option Int
  flight_offers : List Json
  llm_analysis : Option String
  messages : List Message
  current_step : String
  missing_fields : List String
  conversation_context : String
  last_error : Option String

/-- The dataclass defaults: the state of a fresh conversation. -/
def initialState : FlightAssistantState :=
  { origin := none, destination := none, departure_date := none,
    return_date := none, trip_type := "one_way", duration := none,
    travelers := 1, cabin_class := "ECONOMY", currency := "USD",
    amadeus_token := none, token_expires_at := none, flight_offers := [],
    llm_analysis := none, messages := [], current_step := "greeting",
    missing_fields := [], conversation_context := "", last_error := none }

/-- `extract_flight_info(user_input, current_state)` from
`utility_functions.py`.  The `current_state` argument is accepted (as in
the source signature) but never consulted by the body. -/
def extract_flight_info (user_input : String)
    (current_state : FlightAssistantState) : ExtractedInfo :=
  let u := user_input.data
  let airport_codes := findall matchUpper3 (u.map pyUpperChar)
  let lowered := u.map pyLowerChar
  let od : Option String × Option String :=
    match airport_codes with
    | a :: b :: _ => (some (String.mk a), some (String.mk b))
    | _ => (none, none)
  { origin := od.1,
    destination := od.2,
    departure_date := (dateLoop date_patterns u).map String.mk,
    trip_type :=
      if containsWord "round trip" lowered || containsWord "return" lowered
          || containsWord "round-trip" lowered then some "round_trip"
      else if containsWord "one way" lowered || containsWord "one-way" lowered then
        some "one_way"
      else none,
    duration := searchDur lowered,
    cabin_class :=
      if containsWord "business" lowered then some "BUSINESS"
      else if containsWord "first" lowered then some "FIRST"
      else if containsWord "economy" lowered then some "ECONOMY"
      else none }

/-! ## Pipeline node: collect user input -/

/-- Python falsiness of an `Optional[str]` field: `None` or `""`. -/
def pyFalsyStrOpt (o : Option String) : Bool :=
  match o with
  | none => true
  | some s => s.isEmpty

/-- Python falsiness of the `Optional[int]` duration: `None` or `0`. -/
def pyFalsyDur (o : Option Nat) : Bool :=
  match o with
  | none => true
  | some n => n == 0

/-- Python truthiness of an `Optional[str]` value. -/
def truthyOptStr (o : Option String) : Bool :=
  match o with
  | none => false
  | some s => !s.isEmpty

/-- The `setattr` loop of `collect_user_input_node`: each key present in
the extracted dict overwrites the corresponding state field. -/
def applyExtracted (s : FlightAssistantState) (info : ExtractedInfo) :
    FlightAssistantState :=
  { s with
    origin := match info.origin with
      | some v => some v
      | none => s.origin,
    destination := match info.destination with
      | some v => some v
      | none => s.destination,
    departure_date := match info.departure_date with
      | some v => some v
      | none => s.departure_date,
    trip_type := match info.trip_type with
      | some v => v
      | none => s.trip_type,
    duration := match info.duration with
      | some v => some v
      | none => s.duration,
    cabin_class := match info.cabin_class with
      | some v => v
      | none => s.cabin_class }

/-- `collect_user_input_node` from `graph_nodes.py`: on an empty message
log, set `current_step = "greeting"`; otherwise extract from the latest
message, apply the extracted fields, recompute `missing_fields` from the
required fields `origin`, `destination`, `departure_date` (plus
`duration` for a round trip), and set `current_step` accordingly. -/
def collect_user_input_node (s0 : FlightAssistantState) : FlightAssistantState :=
  if s0.messages.isEmpty then { s0 with current_step := "greeting" }
  else
    let latest := (s0.messages.getLastD { role := "", content := "" }).content
    let info := extract_flight_info latest s0
    let s := applyExtracted s0 info
    let missing : List String :=
      (if pyFalsyStrOpt s.origin then ["origin"] else [])
        ++ (if pyFalsyStrOpt s.destination then ["destination"] else [])
        ++ (if pyFalsyStrOpt s.departure_date then ["departure_date"] else [])
        ++ (if s.trip_type = "round_trip" && pyFalsyDur s.duration then ["duration"] else [])
    { s with
      missing_fields := missing,
      current_step := if missing.isEmpty then "ready_to_search" else "collect_missing" }

/-! ## Pipeline node: token manager (`fetch_amadeus_token_node`)

The HTTP POST to the token endpoint is modelled by an outcome parameter:
`Except.ok` carries the parsed `access_token` / `expires_in` pair of a
successful response, `Except.error` the `str(e)` of any failure raised by
the request, `raise_for_status`, or response parsing.  The node returns
the updated state together with the number of network calls issued. -/

/-- Parsed body of a successful token response. -/
structure TokenResponse where
  access_token : String
  expires_in : Int
deriving DecidableEq

/-- Python truthiness of the `Optional[float]` expiry timestamp. -/
def truthyOptInt (o : Option Int) : Bool :=
  match o with
  | none => false
  | some t => !(t == 0)

/-- The cached-token test of `fetch_amadeus_token_node`: token and expiry
both truthy, and `time.time() < token_expires_at - 300` (the 5-minute
buffer). -/
def cacheValid (s : FlightAssistantState) (now : Int) : Bool :=
  truthyOptStr s.amadeus_token && truthyOptInt s.token_expires_at
    && decide (now < s.token_expires_at.getD 0 - 300)

/-- `fetch_amadeus_token_node` from `graph_nodes.py`.  `client_id` and
`client_secret` are the environment credentials (`None` when the
variable is unset); `now` is `time.time()`; `fetchResult` the outcome of
the POST.  Result: updated state and number of network calls. -/
def fetch_amadeus_token_node (client_id client_secret : Option String)
    (now : Int) (fetchResult : Except String TokenResponse)
    (s : FlightAssistantState) : FlightAssistantState × Nat :=
  if cacheValid s now then (s, 0)
  else if !(truthyOptStr client_id) || !(truthyOptStr client_secret) then
    ({ s with last_error := some "Amadeus API credentials not configured" }, 0)
  else
    match fetchResult with
    | Except.ok tr =>
      ({ s with
          amadeus_token := some tr.access_token,
          token_expires_at := some (now + tr.expires_in),
          last_error := none }, 1)
    | Except.error e =>
      ({ s with last_error := some ("Failed to fetch Amadeus token: " ++ e) }, 1)

/-! ## Pipeline node: search caller (`call_flight_offers_api_node`) -/

/-- `response.json().get("data", [])` restricted to the well-typed reply
shape: the `data` array when present (a non-array `data` value is
modelled as absent). -/
def dataOf (j : Json) : List Json :=
  match j with
  | Json.obj fields =>
    match fields.lookup "data" with
    | some (Json.arr xs) => xs
    | _ => []
  | _ => []

/-- `call_flight_offers_api_node` from `graph_nodes.py`.  `callResult` is
the outcome of the POST to the flight-offers endpoint (`Except.error`
models both transport failures and `raise_for_status` on an error
status).  A `ValueError`/`OverflowError` raised while formatting the body
is caught by the node's generic `except` clause.  The `None` state fields
passed to the formatter are modelled as empty strings (an unparseable
date value, like `None`, makes round-trip formatting fail). -/
def call_flight_offers_api_node (callResult : Except String Json)
    (s : FlightAssistantState) : FlightAssistantState :=
  if !(truthyOptStr s.amadeus_token) then
    { s with last_error := some "No valid Amadeus token available" }
  else
    match format_flight_offers_body s.currency (s.origin.getD "")
        (s.destination.getD "") (s.departure_date.getD "") "10:00:00" "ADULT" 3
        s.cabin_class "MOST_SEGMENTS" none s.trip_type s.duration with
    | Except.error e =>
      { s with last_error := some ("Error calling flight offers API: " ++ dateErrorMsg e) }
    | Except.ok _ =>
      match callResult with
      | Except.error e =>
        { s with last_error := some ("API request failed: " ++ e) }
      | Except.ok flight_data =>
        let offers := dataOf flight_data
        if offers.isEmpty then
          { s with flight_offers := offers,
                   last_error := some "No flight offers found for your search criteria" }
        else
          { s with flight_offers := offers, last_error := none }

/-! ## Pipeline node: offer summarizer (`analyze_offers_with_llm_node`)

The per-offer summary construction is translated with an explicit model
of the Python attribute/iteration errors the inner `try` catches; the
OpenAI client construction and chat-completion call are modelled by one
outcome parameter (their failures are indistinguishable to the node).
String renderings of non-scalar values (`str`, `repr`, `json.dumps`
whitespace) are abbreviated; no property depends on them. -/

/-- `x.get(key, default)`: succeeds on a dict, raises `AttributeError`
otherwise. -/
def pyGet (j : Json) (key : String) (dflt : Json) : Except String Json :=
  match j with
  | Json.obj fields => Except.ok ((fields.lookup key).getD dflt)
  | _ => Except.error "AttributeError: object has no attribute get"

/-- Python iteration over a value: lists yield elements, strings yield
1-character strings, dicts yield their keys, other values raise
`TypeError`. -/
def pyIter (j : Json) : Except String (List Json) :=
  match j with
  | Json.arr xs => Except.ok xs
  | Json.str s => Except.ok (s.data.map (fun c => Json.str (String.mk [c])))
  | Json.obj fields => Except.ok (fields.map (fun kv => Json.str kv.1))
  | _ => Except.error "TypeError: object is not iterable"

/-- Python `str()` of a JSON value (scalars exact, containers
abbreviated). -/
def pyStr : Json → String
  | Json.str s => s
  | Json.num n => toString n
  | Json.null => "None"
  | Json.bool true => "True"
  | Json.bool false => "False"
  | Json.arr _ => "<list>"
  | Json.obj _ => "<dict>"

/-- The per-segment dict built inside the itinerary loop. -/
def summarizeSegment (segment : Json) : Except String Json := do
  let departure ← pyGet segment "departure" (Json.obj [])
  let arrival ← pyGet segment "arrival" (Json.obj [])
  let carrier ← pyGet segment "carrierCode" (Json.str "N/A")
  let number ← pyGet segment "number" (Json.str "N/A")
  let fromCode ← pyGet departure "iataCode" (Json.str "N/A")
  let toCode ← pyGet arrival "iataCode" (Json.str "N/A")
  let depAt ← pyGet departure "at" (Json.str "N/A")
  let arrAt ← pyGet arrival "at" (Json.str "N/A")
  pure (Json.obj
    [("carrier", carrier),
     ("flight", Json.str (pyStr carrier ++ pyStr number)),
     ("from", fromCode), ("to", toCode),
     ("departure_time", depAt), ("arrival_time", arrAt)])

/-- The itinerary loop of one offer.  The local variable `duration` of
the Python loop persists across iterations (and across offers); it is
threaded as an accumulator so that an offer whose loop body never runs
reads the previous binding (or raises `NameError`). An error carries the
binding state at the moment it is raised. -/
def foldItineraries (durVar : Option Json) :
    List Json → Except (String × Option Json) (List Json × Option Json)
  | [] => Except.ok ([], durVar)
  | it :: rest =>
    match pyGet it "segments" (Json.arr []) with
    | Except.error e => Except.error (e, durVar)
    | Except.ok segments =>
      match pyGet it "duration" (Json.str "N/A") with
      | Except.error e => Except.error (e, durVar)
      | Except.ok dur =>
        match pyIter segments with
        | Except.error e => Except.error (e, some dur)
        | Except.ok segList =>
          match segList.mapM summarizeSegment with
          | Except.error e => Except.error (e, some dur)
          | Except.ok infos =>
            match foldItineraries (some dur) rest with
            | Except.error p => Except.error p
            | Except.ok (more, dv) => Except.ok (infos ++ more, dv)

/-- The error entry appended when parsing an offer raises. -/
def errEntry (i : Nat) (e : String) : Json :=
  Json.obj [("option", Json.num i),
            ("error", Json.str ("Error parsing flight " ++ toString i ++ ": " ++ e))]

/-- Summarize one offer (the body of the outer loop, with its inner
`try`/`except`): returns the summary entry and the updated `duration`
binding. -/
def summarizeOffer (cur : String) (durVar : Option Json) (i : Nat)
    (offer : Json) : Json × Option Json :=
  match pyGet offer "price" (Json.obj []) with
  | Except.error e => (errEntry i e, durVar)
  | Except.ok priceObj =>
    match pyGet priceObj "total" (Json.str "N/A") with
    | Except.error e => (errEntry i e, durVar)
    | Except.ok price =>
      match pyGet offer "price" (Json.obj []) with
      | Except.error e => (errEntry i e, durVar)
      | Except.ok priceObj2 =>
        match pyGet priceObj2 "currency" (Json.str cur) with
        | Except.error e => (errEntry i e, durVar)
        | Except.ok currencyJ =>
          match pyGet offer "itineraries" (Json.arr []) with
          | Except.error e => (errEntry i e, durVar)
          | Except.ok its =>
            match pyIter its with
            | Except.error e => (errEntry i e, durVar)
            | Except.ok itList =>
              match foldItineraries durVar itList with
              | Except.error (e, dv) => (errEntry i e, dv)
              | Except.ok (segs, dv) =>
                match dv with
                | none => (errEntry i "NameError: name duration is not defined", dv)
                | some d =>
                  (Json.obj
                    [("option", Json.num i),
                     ("price", Json.str (pyStr price ++ " " ++ pyStr currencyJ)),
                     ("segments", Json.arr segs),
                     ("total_duration", d)], dv)

/-- The outer loop over `state.flight_offers[:3]`, numbering options from
1 and threading the `duration` binding. -/
def summaryLoop (cur : String) (durVar : Option Json) (i : Nat) :
    List Json → List Json
  | [] => []
  | o :: rest =>
    match summarizeOffer cur durVar i o with
    | (entry, dv) => entry :: summaryLoop cur dv (i + 1) rest

/-- `flight_summary` as built by the node. -/
def buildFlightSummary (cur : String) (offers : List Json) : List Json :=
  summaryLoop cur none 1 (offers.take 3)

mutual

/-- `json.dumps` (compact rendering; the source uses `indent=2`, which
only changes whitespace). -/
def jsonDumps : Json → String
  | Json.null => "null"
  | Json.bool true => "true"
  | Json.bool false => "false"
  | Json.num n => toString n
  | Json.str s => "\"" ++ s ++ "\""
  | Json.arr xs => "[" ++ jsonDumpsList xs ++ "]"
  | Json.obj fields => "\x7b" ++ jsonDumpsFields fields ++ "\x7d"

/-- Comma-separated rendering of a JSON array body. -/
def jsonDumpsList : List Json → String
  | [] => ""
  | [x] => jsonDumps x
  | x :: y :: rest => jsonDumps x ++ ", " ++ jsonDumpsList (y :: rest)

/-- Comma-separated rendering of a JSON object body. -/
def jsonDumpsFields : List (String × Json) → String
  | [] => ""
  | [kv] => "\"" ++ kv.1 ++ "\": " ++ jsonDumps kv.2
  | kv :: kv2 :: rest =>
    "\"" ++ kv.1 ++ "\": " ++ jsonDumps kv.2 ++ ", " ++ jsonDumpsFields (kv2 :: rest)

end

/-- `f"{x}"` of an `Optional[str]` state field. -/
def pyStrOpt (o : Option String) : String :=
  match o with
  | none => "None"
  | some s => s

/-- The LLM prompt template of the node (interpolation exact, literal
prose abbreviated where immaterial). -/
def mkPrompt (s : FlightAssistantState) (flight_summary : List Json) : String :=
  "\n        Analyze the following flight options for a trip from "
    ++ pyStrOpt s.origin ++ " to " ++ pyStrOpt s.destination ++ " on "
    ++ pyStrOpt s.departure_date ++ ":\n        "
    ++ jsonDumps (Json.arr flight_summary)
    ++ "\n        Trip type: " ++ s.trip_type
    ++ "\n        Cabin class: " ++ s.cabin_class
    ++ "\n\n        Please provide a friendly, conversational analysis."

/-- `analyze_offers_with_llm_node` from `graph_nodes.py`.
`openai_api_key` is the environment credential; `llmResult` the outcome
of client construction plus the chat-completion call (`Except.ok` carries
the returned message content).  The node is a total function: no failure
propagates to the caller. -/
def analyze_offers_with_llm_node (openai_api_key : Option String)
    (llmResult : Except String String) (s : FlightAssistantState) :
    FlightAssistantState :=
  if s.flight_offers.isEmpty then
    { s with llm_analysis := some "No flight offers available to analyze." }
  else if !(truthyOptStr openai_api_key) then
    { s with last_error := some "OpenAI API key not configured" }
  else
    let flight_summary := buildFlightSummary s.currency s.flight_offers
    let prompt := mkPrompt s flight_summary
    match llmResult with
    | Except.ok content =>
      { s with llm_analysis := some content, last_error := none }
    | Except.error e =>
      { s with
        last_error := some ("Error analyzing flights with LLM: " ++ e),
        llm_analysis :=
          some "I couldn\x27t analyze the flight options right now, but I found some flights for you!" }

/-! ## Specification-side reference definitions

These definitions follow the wording of the specification (not the
source); they exist to be compared with the source-derived definitions
above. -/

/-- Whether one of the three required text fields is unset (falsy) in a
state; used to state which fields the completeness check reports. -/
def requiredUnset (s : FlightAssistantState) (f : String) : Bool :=
  if f = "origin" then pyFalsyStrOpt s.origin
  else if f = "destination" then pyFalsyStrOpt s.destination
  else if f = "departure_date" then pyFalsyStrOpt s.departure_date
  else false

/-- Modelled from the spec: "try, in order, `YYYY-MM-DD`, `MM/DD/YYYY`,
`MM-DD-YYYY`; first pattern that both matches text and parses
successfully wins; normalize to `YYYY-MM-DD`.  Only the first matched
date string is used", with "malformed dates matching a pattern but
failing to parse ... skipped, falling through to the next pattern".
Each pattern is paired with its own parsing format, instead of the
content-directed dispatch of the source. -/
def specDateLoop :
    List ((List Char → Option (List Char × List Char)) × (List Char → Option Date)) →
    List Char → Option (List Char)
  | [], _ => none
  | (p, parse) :: ps, u =>
    match findall p u with
    | [] => specDateLoop ps u
    | d0 :: _ =>
      match parse d0 with
      | some d => some (fmtDate d)
      | none => specDateLoop ps u

/-- The three patterns of the spec, each paired with its own format. -/
def specPatternParsers :
    List ((List Char → Option (List Char × List Char)) × (List Char → Option Date)) :=
  [(matchYMD, strptimeYMD), (matchMDY '/', strptimeMDY '/'), (matchMDY '-', strptimeMDY '-')]

/-- Date extraction as worded by the spec. -/
def specDateExtract (u : String) : Option String :=
  (specDateLoop specPatternParsers u.data).map String.mk

/-! # Theorems -/

/-! ## Scanner and matcher lemmas -/

/-- Every string emitted by the scanner is the match part of a
successful run of the matcher on some suffix. -/
theorem mem_scanAux {m : List Char → Option (List Char × List Char)}
    {fuel : Nat} {b : Bool} {cs w : List Char}
    (h : w ∈ scanAux m fuel b cs) :
    ∃ cs2 r, m cs2 = some (w, r) := by
  induction fuel generalizing b cs with
  | zero => simp [scanAux] at h
  | succ fuel ih =>
    cases cs with
    | nil => simp [scanAux] at h
    | cons c rest =>
      cases b with
      | false =>
        simp only [scanAux, Bool.false_eq_true, if_false] at h
        exact ih h
      | true =>
        simp only [scanAux, if_true] at h
        cases hm : m (c :: rest) with
        | none =>
          rw [hm] at h
          exact ih h
        | some p =>
          rw [hm] at h
          rcases List.mem_cons.mp h with h1 | h2
          · exact ⟨c :: rest, p.2, by rw [hm, h1]⟩
          · exact ih h2

/-- The first result of `findall` is a match of the pattern. -/
theorem findall_head_match {m : List Char → Option (List Char × List Char)}
    {u d0 : List Char} {t : List (List Char)}
    (h : findall m u = d0 :: t) : ∃ cs2 r, m cs2 = some (d0, r) :=
  mem_scanAux (by unfold findall at h; rw [h]; exact List.mem_cons_self d0 t)

/-- `takeWhile` over a list that starts with a run satisfying the
predicate followed by an element that does not. -/
theorem takeWhile_run_append {α} (p : α → Bool) {A : List α} {c : α}
    (rest : List α) (hA : ∀ a ∈ A, p a = true) (hc : p c = false) :
    (A ++ c :: rest).takeWhile p = A := by
  induction A with
  | nil => simp [List.takeWhile_cons, hc]
  | cons a A ih =>
    have ha := hA a (List.mem_cons_self a A)
    simp only [List.cons_append, List.takeWhile_cons, ha, if_true]
    rw [ih (fun x hx => hA x (List.mem_cons_of_mem a hx))]

/-- A digit is not a slash. -/
theorem digit_ne_slash {c : Char} (h : Char.isDigit c = true) : (c = '/') = False := by
  refine eq_false (fun he => ?_)
  rw [he] at h
  exact absurd h (by decide)

/-- A digit is not a dash. -/
theorem digit_ne_dash {c : Char} (h : Char.isDigit c = true) : (c = '-') = False := by
  refine eq_false (fun he => ?_)
  rw [he] at h
  exact absurd h (by decide)

/-- A string made of digit runs separated by dashes contains no slash. -/
theorem any_slash_digits_dashes {A B C : List Char}
    (hA : ∀ a ∈ A, Char.isDigit a = true) (hB : ∀ a ∈ B, Char.isDigit a = true)
    (hC : ∀ a ∈ C, Char.isDigit a = true) :
    ((A ++ '-' :: B ++ '-' :: C).any fun x => x = '/') = false := by
  rw [List.any_eq_false]
  intro x hx
  simp only [List.mem_append, List.mem_cons] at hx
  simp only [decide_eq_true_eq]
  rcases hx with (hx | hx | hx) | (hx | hx)
  · exact fun he => absurd (he ▸ hA x hx) (by decide)
  · exact fun he => absurd (hx ▸ he) (by decide)
  · exact fun he => absurd (he ▸ hB x hx) (by decide)
  · exact fun he => absurd (hx ▸ he) (by decide)
  · exact fun he => absurd (he ▸ hC x hx) (by decide)

/-- The dash-free prefix of the dash-separated digit-run string is the
first run. -/
theorem takeWhile_dash_digits {A : List Char} (B C : List Char)
    (hA : ∀ a ∈ A, Char.isDigit a = true) :
    List.takeWhile (fun x => !(x = '-')) (A ++ '-' :: B ++ '-' :: C) = A := by
  have hshape : A ++ '-' :: B ++ '-' :: C = A ++ ('-' :: (B ++ '-' :: C)) := by
    simp [List.append_assoc, List.cons_append]
  rw [hshape]
  refine takeWhile_run_append _ (B ++ '-' :: C) (fun a ha => ?_) (by simp)
  simp [digit_ne_dash (hA a ha)]

/-- A match of the `YYYY-MM-DD` pattern drives the content dispatch of
`tryParseDate` into the `%Y-%m-%d` branch: the match has no slash, and
its dash-free prefix is the 4-digit year. -/
theorem tryParse_matchYMD {cs w r : List Char} (h : matchYMD cs = some (w, r)) :
    tryParseDate w = strptimeYMD w := by
  unfold matchYMD at h
  split at h
  case isFalse => exact absurd h (by simp)
  case isTrue h4 =>
    split at h
    next r2 heq =>
      split at h
      case isFalse => exact absurd h (by simp)
      case isTrue h2 =>
        split at h
        next r4 heq2 =>
          split at h
          case isFalse => exact absurd h (by simp)
          case isTrue h3 =>
            rw [Option.some.injEq, Prod.mk.injEq] at h
            obtain ⟨hw, hr⟩ := h
            subst hw
            have hA : ∀ a ∈ List.takeWhile Char.isDigit cs, Char.isDigit a = true :=
              fun a ha => List.mem_takeWhile_imp ha
            have hB : ∀ a ∈ List.takeWhile Char.isDigit r2, Char.isDigit a = true :=
              fun a ha => List.mem_takeWhile_imp ha
            have hC : ∀ a ∈ List.takeWhile Char.isDigit r4, Char.isDigit a = true :=
              fun a ha => List.mem_takeWhile_imp ha
            unfold tryParseDate
            rw [any_slash_digits_dashes hA hB hC]
            rw [takeWhile_dash_digits _ _ hA, h4]
            simp
        next heq2 => exact absurd h (by simp)
    next heq => exact absurd h (by simp)

/-- A match of the `MM/DD/YYYY` pattern contains a slash, so
`tryParseDate` parses it with `%m/%d/%Y`. -/
theorem tryParse_matchMDYslash {cs w r : List Char}
    (h : matchMDY '/' cs = some (w, r)) :
    tryParseDate w = strptimeMDY '/' w := by
  unfold matchMDY at h
  split at h
  case isFalse => exact absurd h (by simp)
  case isTrue h1 =>
    split at h
    next c r2 heq =>
      split at h
      case isFalse => exact absurd h (by simp)
      case isTrue hc =>
        split at h
        case isFalse => exact absurd h (by simp)
        case isTrue h2 =>
          split at h
          next c2 r4 heq2 =>
            split at h
            case isFalse => exact absurd h (by simp)
            case isTrue hc2 =>
              split at h
              case isFalse => exact absurd h (by simp)
              case isTrue h3 =>
                rw [Option.some.injEq, Prod.mk.injEq] at h
                obtain ⟨hw, hr⟩ := h
                subst hw
                unfold tryParseDate
                rw [if_pos]
                simp
          next heq2 => exact absurd h (by simp)
    next heq => exact absurd h (by simp)

/-- A match of the `MM-DD-YYYY` pattern has no slash and a dash-free
prefix of at most two digits, so `tryParseDate` parses it with
`%m-%d-%Y`. -/
theorem tryParse_matchMDYdash {cs w r : List Char}
    (h : matchMDY '-' cs = some (w, r)) :
    tryParseDate w = strptimeMDY '-' w := by
  unfold matchMDY at h
  split at h
  case isFalse => exact absurd h (by simp)
  case isTrue h1 =>
    split at h
    next c r2 heq =>
      split at h
      case isFalse => exact absurd h (by simp)
      case isTrue hc =>
        split at h
        case isFalse => exact absurd h (by simp)
        case isTrue h2 =>
          split at h
          next c2 r4 heq2 =>
            split at h
            case isFalse => exact absurd h (by simp)
            case isTrue hc2 =>
              split at h
              case isFalse => exact absurd h (by simp)
              case isTrue h3 =>
                rw [Option.some.injEq, Prod.mk.injEq] at h
                obtain ⟨hw, hr⟩ := h
                subst hw
                have hA : ∀ a ∈ List.takeWhile Char.isDigit cs, Char.isDigit a = true :=
                  fun a ha => List.mem_takeWhile_imp ha
                have hB : ∀ a ∈ List.takeWhile Char.isDigit r2, Char.isDigit a = true :=
                  fun a ha => List.mem_takeWhile_imp ha
                have hC : ∀ a ∈ List.takeWhile Char.isDigit r4, Char.isDigit a = true :=
                  fun a ha => List.mem_takeWhile_imp ha
                have hlen : (List.takeWhile Char.isDigit cs).length ≤ 2 := by
                  rcases Bool.or_eq_true _ _ |>.mp h1 with h0 | h0 <;>
                    simp only [decide_eq_true_eq] at h0 <;> omega
                unfold tryParseDate
                rw [any_slash_digits_dashes hA hB hC]
                rw [takeWhile_dash_digits _ _ hA]
                simp [hlen]
          next heq2 => exact absurd h (by simp)
    next heq => exact absurd h (by simp)

/-- Loop equality, last pattern: on `MM-DD-YYYY` matches the content
dispatch agrees with the pattern's own format. -/
theorem dateLoop_dash_eq (u : List Char) :
    dateLoop [matchMDY '-'] u = specDateLoop [(matchMDY '-', strptimeMDY '-')] u := by
  simp only [dateLoop, specDateLoop]
  cases h : findall (matchMDY '-') u with
  | nil => rfl
  | cons d0 t =>
    dsimp only
    obtain ⟨cs2, r, hm⟩ := findall_head_match h
    rw [tryParse_matchMDYdash hm]

/-- Loop equality, last two patterns. -/
theorem dateLoop_slash_eq (u : List Char) :
    dateLoop [matchMDY '/', matchMDY '-'] u =
      specDateLoop [(matchMDY '/', strptimeMDY '/'), (matchMDY '-', strptimeMDY '-')] u := by
  simp only [dateLoop, specDateLoop]
  cases h : findall (matchMDY '/') u with
  | nil => exact dateLoop_dash_eq u
  | cons d0 t =>
    dsimp only
    obtain ⟨cs2, r, hm⟩ := findall_head_match h
    rw [tryParse_matchMDYslash hm]
    cases hp : strptimeMDY '/' d0 with
    | none => exact dateLoop_dash_eq u
    | some d => rfl

/-- The date-extraction loop of the source equals the loop described by
the spec, with each pattern parsed by its own format. -/
theorem dateLoop_eq_specDate (u : List Char) :
    dateLoop date_patterns u = specDateLoop specPatternParsers u := by
  simp only [date_patterns, specPatternParsers, dateLoop, specDateLoop]
  cases h : findall matchYMD u with
  | nil => exact dateLoop_slash_eq u
  | cons d0 t =>
    dsimp only
    obtain ⟨cs2, r, hm⟩ := findall_head_match h
    rw [tryParse_matchYMD hm]
    cases hp : strptimeYMD d0 with
    | none => exact dateLoop_slash_eq u
    | some d => rfl

/-! ## Claim theorems -/

/-- C1: evidence of the code/spec divergence at the failing input.  For
the utterance "I want to fly from JFK to LHR on 2025-07-10, business
class, one way" the claim (and the extractor's own intent of matching
airport codes) expects origin JFK and destination LHR; because the
extractor upper-cases the whole utterance before the 3-letter scan, the
words fly/one/way also match, and the code returns origin "FLY" and
destination "JFK".  Date, trip type and cabin class agree with the
claim, and the completeness check indeed reports no missing fields. -/
theorem C1_code_behavior :
    extract_flight_info
        "I want to fly from JFK to LHR on 2025-07-10, business class, one way"
        initialState =
      { origin := some "FLY", destination := some "JFK",
        departure_date := some "2025-07-10", trip_type := some "one_way",
        duration := none, cabin_class := some "BUSINESS" } ∧
    (collect_user_input_node
        { initialState with
          messages := [{ role := "user",
                         content := "I want to fly from JFK to LHR on 2025-07-10, business class, one way" }] }).missing_fields
      = [] :=
  ⟨rfl, rfl⟩

/-- C2 counterexample: for trip_type round_trip with duration 5 and
departure_date 2025-06-01 the return leg's date in the formatted body is
2025-06-06 (the code adds exactly `duration` days to the departure
date), not 2025-06-07 as the claim states. -/
theorem C2_counterexample :
    (format_flight_offers_body "USD" "JFK" "LHR" "2025-06-01" "10:00:00" "ADULT" 3
        "ECONOMY" "MOST_SEGMENTS" none "round_trip" (some 5)).map
      (fun b => b.originDestinations.map (fun od => od.departureDateTimeRange.date)) =
      Except.ok ["2025-06-01", "2025-06-06"] ∧
    ("2025-06-06" : String) ≠ "2025-06-07" :=
  ⟨rfl, by decide⟩

/-- C2 (amended): for trip_type one_way the formatted request body
contains exactly one origin-destination leg, for every choice of the
remaining arguments; for trip_type round_trip with duration 5 and
departure_date 2025-06-01 the return leg's date in the body is exactly
2025-06-06. -/
theorem C2_amended_thm :
    (∀ (cc o dst dd dt tv : String) (mx : Nat) (cb cv : String)
        (src : Option (List String)) (dur : Option Nat),
      (format_flight_offers_body cc o dst dd dt tv mx cb cv src "one_way" dur).map
        (fun b => b.originDestinations.length) = Except.ok 1) ∧
    (format_flight_offers_body "USD" "JFK" "LHR" "2025-06-01" "10:00:00" "ADULT" 3
        "ECONOMY" "MOST_SEGMENTS" none "round_trip" (some 5)).map
      (fun b => b.originDestinations.map (fun od => od.departureDateTimeRange.date)) =
      Except.ok ["2025-06-01", "2025-06-06"] := by
  constructor
  · intro cc o dst dd dt tv mx cb cv src dur
    simp [format_flight_offers_body, Except.map]
  · rfl

/-- C6 counterexample: a state whose cached token is absent does not
always trigger exactly one token-fetch call: with the client credentials
unconfigured the node issues zero network calls and records a
configuration error instead. -/
theorem C6_counterexample :
    (fetch_amadeus_token_node none none 1000
        (Except.ok { access_token := "tok", expires_in := 1799 }) initialState).2 = 0 ∧
    (fetch_amadeus_token_node none none 1000
        (Except.ok { access_token := "tok", expires_in := 1799 }) initialState).1.last_error
      = some "Amadeus API credentials not configured" ∧
    initialState.amadeus_token = none :=
  ⟨rfl, rfl, rfl⟩

/-- C6 (amended): a state whose cached token and expiry are truthy with
the expiry more than 5 minutes after the current time is returned
unchanged with zero network calls; a state failing that cache test
triggers exactly one token-fetch call provided both client credentials
are configured (with a credential missing, the node issues no call and
records a configuration error, as the counterexample shows). -/
theorem C6_amended_thm (cid csec : Option String) (now : Int)
    (fr : Except String TokenResponse) (s1 s2 : FlightAssistantState)
    (h1 : cacheValid s1 now = true) (h2 : cacheValid s2 now = false)
    (hcid : truthyOptStr cid = true) (hcsec : truthyOptStr csec = true) :
    fetch_amadeus_token_node cid csec now fr s1 = (s1, 0) ∧
    (fetch_amadeus_token_node cid csec now fr s2).2 = 1 := by
  constructor
  · simp [fetch_amadeus_token_node, h1]
  · simp only [fetch_amadeus_token_node, h2, Bool.false_eq_true, if_false,
      hcid, hcsec, Bool.not_true, Bool.or_self]
    cases fr <;> rfl

/-- Witness for C6: a concrete cached-token state (expiry 10000, now 0)
is returned unchanged with zero calls, and the fresh state (no token)
with credentials configured issues exactly one call. -/
theorem C6_witness :
    fetch_amadeus_token_node (some "id") (some "secret") 0
        (Except.error "boom")
        { initialState with amadeus_token := some "tok", token_expires_at := some 10000 }
      = ({ initialState with amadeus_token := some "tok", token_expires_at := some 10000 }, 0) ∧
    (fetch_amadeus_token_node (some "id") (some "secret") 0
        (Except.error "boom") initialState).2 = 1 := by
  refine ⟨?_, ?_⟩
  · exact (C6_amended_thm (some "id") (some "secret") 0 (Except.error "boom")
      { initialState with amadeus_token := some "tok", token_expires_at := some 10000 }
      initialState rfl rfl rfl rfl).1
  · exact (C6_amended_thm (some "id") (some "secret") 0 (Except.error "boom")
      { initialState with amadeus_token := some "tok", token_expires_at := some 10000 }
      initialState rfl rfl rfl rfl).2

/-- C7: with a truthy token and a formattable request body, a failed
search call (transport or API level, including `raise_for_status`)
records the request error in `last_error` and leaves `flight_offers` at
its prior value; a successful call whose `data` array is non-empty
replaces `flight_offers` with that array and clears `last_error`. -/
theorem C7_thm (s : FlightAssistantState) (body : FlightOffersBody)
    (e : String) (j : Json) (xs : List Json)
    (htok : truthyOptStr s.amadeus_token = true)
    (hfmt : format_flight_offers_body s.currency (s.origin.getD "")
        (s.destination.getD "") (s.departure_date.getD "") "10:00:00" "ADULT" 3
        s.cabin_class "MOST_SEGMENTS" none s.trip_type s.duration = Except.ok body)
    (hdata : dataOf j = xs) (hne : xs.isEmpty = false) :
    ((call_flight_offers_api_node (Except.error e) s).last_error
        = some ("API request failed: " ++ e) ∧
      (call_flight_offers_api_node (Except.error e) s).flight_offers = s.flight_offers) ∧
    ((call_flight_offers_api_node (Except.ok j) s).flight_offers = xs ∧
      (call_flight_offers_api_node (Except.ok j) s).last_error = none) := by
  constructor
  · constructor <;> simp [call_flight_offers_api_node, htok, hfmt]
  · constructor <;> simp [call_flight_offers_api_node, htok, hfmt, hdata, hne]

/-- Witness for C7: a concrete one-way state with a token; the HTTP 500
outcome keeps the prior offers and records the error, the successful
outcome installs the returned offer list and clears the error. -/
theorem C7_witness :
    ((call_flight_offers_api_node (Except.error "HTTP 500")
        { initialState with amadeus_token := some "tok" }).last_error
      = some ("API request failed: " ++ "HTTP 500") ∧
     (call_flight_offers_api_node (Except.error "HTTP 500")
        { initialState with amadeus_token := some "tok" }).flight_offers
      = ({ initialState with amadeus_token := some "tok" } : FlightAssistantState).flight_offers) ∧
    ((call_flight_offers_api_node
        (Except.ok (Json.obj [("data", Json.arr [Json.obj [("id", Json.str "1")]])]))
        { initialState with amadeus_token := some "tok" }).flight_offers
      = [Json.obj [("id", Json.str "1")]] ∧
     (call_flight_offers_api_node
        (Except.ok (Json.obj [("data", Json.arr [Json.obj [("id", Json.str "1")]])]))
        { initialState with amadeus_token := some "tok" }).last_error = none) :=
  C7_thm { initialState with amadeus_token := some "tok" }
    { currencyCode := "USD",
      originDestinations := [{ id := "1", originLocationCode := "",
                               destinationLocationCode := "",
                               departureDateTimeRange := { date := "", time := "10:00:00" } }],
      travelers := [{ id := "1", travelerType := "ADULT" }],
      sources := ["GDS"],
      searchCriteria := { maxFlightOffers := 3,
                          flightFilters := { cabinRestrictions :=
                            [{ cabin := "ECONOMY", coverage := "MOST_SEGMENTS",
                               originDestinationIds := ["1"] }] } } }
    "HTTP 500" (Json.obj [("data", Json.arr [Json.obj [("id", Json.str "1")]])])
    [Json.obj [("id", Json.str "1")]] rfl rfl rfl rfl

/-- C8: for a state with non-empty flight offers and a configured API
key, a failure of the language-model call sets `llm_analysis` to the
exact fallback literal, records the error, and leaves the offers
untouched; the node is a total function, so no failure propagates to the
caller. -/
theorem C8_thm (key : Option String) (e : String) (s : FlightAssistantState)
    (hoff : s.flight_offers.isEmpty = false) (hkey : truthyOptStr key = true) :
    (analyze_offers_with_llm_node key (Except.error e) s).llm_analysis
      = some "I couldn\x27t analyze the flight options right now, but I found some flights for you!" ∧
    (analyze_offers_with_llm_node key (Except.error e) s).flight_offers = s.flight_offers ∧
    (analyze_offers_with_llm_node key (Except.error e) s).last_error
      = some ("Error analyzing flights with LLM: " ++ e) := by
  refine ⟨?_, ?_, ?_⟩ <;> simp [analyze_offers_with_llm_node, hoff, hkey]

/-- Witness for C8: one concrete offer, a configured key and a failing
LLM call produce exactly the fallback literal. -/
theorem C8_witness :
    (analyze_offers_with_llm_node (some "key") (Except.error "boom")
        { initialState with flight_offers := [Json.obj []] }).llm_analysis
      = some "I couldn\x27t analyze the flight options right now, but I found some flights for you!" ∧
    (analyze_offers_with_llm_node (some "key") (Except.error "boom")
        { initialState with flight_offers := [Json.obj []] }).flight_offers
      = ({ initialState with flight_offers := [Json.obj []] } : FlightAssistantState).flight_offers ∧
    (analyze_offers_with_llm_node (some "key") (Except.error "boom")
        { initialState with flight_offers := [Json.obj []] }).last_error
      = some ("Error analyzing flights with LLM: " ++ "boom") :=
  C8_thm (some "key") "boom" { initialState with flight_offers := [Json.obj []] } rfl rfl

/-- C10: the slot extractor is a function of the utterance alone — for
any two conversation states its result is identical (two-run
noninterference with respect to the state argument, which the body never
consults). -/
theorem C10_thm (u : String) (s1 s2 : FlightAssistantState) :
    extract_flight_info u s1 = extract_flight_info u s2 := rfl

/-- Evaluation of the required-field test at the literal field names. -/
theorem requiredUnset_origin (s : FlightAssistantState) :
    requiredUnset s "origin" = pyFalsyStrOpt s.origin := rfl

/-- Evaluation of the required-field test at the literal field names. -/
theorem requiredUnset_destination (s : FlightAssistantState) :
    requiredUnset s "destination" = pyFalsyStrOpt s.destination := rfl

/-- Evaluation of the required-field test at the literal field names. -/
theorem requiredUnset_departure (s : FlightAssistantState) :
    requiredUnset s "departure_date" = pyFalsyStrOpt s.departure_date := rfl

/-- A missing-field list built from the four condition flags never
contains `cabin_class` or `trip_type`. -/
theorem missing_fields_only_required (b1 b2 b3 b4 : Bool) :
    "cabin_class" ∉ ((if b1 = true then ["origin"] else [])
      ++ (if b2 = true then ["destination"] else [])
      ++ (if b3 = true then ["departure_date"] else [])
      ++ (if b4 = true then ["duration"] else [])) ∧
    "trip_type" ∉ ((if b1 = true then ["origin"] else [])
      ++ (if b2 = true then ["destination"] else [])
      ++ (if b3 = true then ["departure_date"] else [])
      ++ (if b4 = true then ["duration"] else [])) := by
  cases b1 <;> cases b2 <;> cases b3 <;> cases b4 <;> decide

/-- C3 counterexample: a state whose `cabin_class` is unset (falsy) in
which extraction resolves origin, destination and date ends the turn
with an empty `missing_fields` list — `cabin_class` is not reported
missing, contradicting the claim (the same holds for `trip_type`, which
the required-field loop never inspects). -/
theorem C3_counterexample :
    (collect_user_input_node
        { initialState with
          messages := [{ role := "user", content := "Flying JFK to LHR on 2025-07-10" }],
          cabin_class := "" }).cabin_class = "" ∧
    (collect_user_input_node
        { initialState with
          messages := [{ role := "user", content := "Flying JFK to LHR on 2025-07-10" }],
          cabin_class := "" }).missing_fields = [] :=
  ⟨rfl, rfl⟩

/-- C3 (amended): after extraction runs on a turn (non-empty message
log), `missing_fields` is exactly the unset (falsy) fields among origin,
destination and departure_date, in that order, followed by `duration`
when the post-extraction trip type is round_trip with a falsy duration;
`cabin_class` and `trip_type` are never reported missing. -/
theorem C3_amended_thm (s : FlightAssistantState)
    (h : s.messages.isEmpty = false) :
    ((collect_user_input_node s).missing_fields =
      (["origin", "destination", "departure_date"].filter
        (fun f => requiredUnset (applyExtracted s (extract_flight_info
          (s.messages.getLastD { role := "", content := "" }).content s)) f)) ++
      (if (applyExtracted s (extract_flight_info
              (s.messages.getLastD { role := "", content := "" }).content s)).trip_type
            = "round_trip"
          && pyFalsyDur (applyExtracted s (extract_flight_info
              (s.messages.getLastD { role := "", content := "" }).content s)).duration
        then ["duration"] else [])) ∧
    "cabin_class" ∉ (collect_user_input_node s).missing_fields ∧
    "trip_type" ∉ (collect_user_input_node s).missing_fields := by
  have hnode : (collect_user_input_node s).missing_fields =
      (if pyFalsyStrOpt (applyExtracted s (extract_flight_info
          (s.messages.getLastD { role := "", content := "" }).content s)).origin = true
        then ["origin"] else [])
      ++ (if pyFalsyStrOpt (applyExtracted s (extract_flight_info
          (s.messages.getLastD { role := "", content := "" }).content s)).destination = true
        then ["destination"] else [])
      ++ (if pyFalsyStrOpt (applyExtracted s (extract_flight_info
          (s.messages.getLastD { role := "", content := "" }).content s)).departure_date = true
        then ["departure_date"] else [])
      ++ (if ((applyExtracted s (extract_flight_info
              (s.messages.getLastD { role := "", content := "" }).content s)).trip_type
            = "round_trip"
          && pyFalsyDur (applyExtracted s (extract_flight_info
              (s.messages.getLastD { role := "", content := "" }).content s)).duration) = true
        then ["duration"] else []) := by
    simp only [collect_user_input_node, h, Bool.false_eq_true, if_false]
  refine ⟨?_, ?_, ?_⟩
  · rw [hnode]
    generalize applyExtracted s (extract_flight_info
      (s.messages.getLastD { role := "", content := "" }).content s) = s1
    cases ho : pyFalsyStrOpt s1.origin <;>
      cases hd : pyFalsyStrOpt s1.destination <;>
        cases hdd : pyFalsyStrOpt s1.departure_date <;>
          simp [List.filter_cons, List.filter_nil, requiredUnset_origin,
            requiredUnset_destination, requiredUnset_departure, ho, hd, hdd]
  · rw [hnode]
    exact (missing_fields_only_required _ _ _ _).1
  · rw [hnode]
    exact (missing_fields_only_required _ _ _ _).2

/-- Witness for C3: the spec's own scenario — a round-trip request with
origin, destination and date supplied but no duration reports exactly
`["duration"]`, and never `cabin_class` or `trip_type`. -/
theorem C3_witness :
    (collect_user_input_node
        { initialState with
          messages := [{ role := "user", content := "round trip JFK to LHR on 2025-07-10" }] }).missing_fields
      = ["duration"] ∧
    "cabin_class" ∉ (collect_user_input_node
        { initialState with
          messages := [{ role := "user", content := "round trip JFK to LHR on 2025-07-10" }] }).missing_fields ∧
    "trip_type" ∉ (collect_user_input_node
        { initialState with
          messages := [{ role := "user", content := "round trip JFK to LHR on 2025-07-10" }] }).missing_fields := by
  have h := C3_amended_thm
    { initialState with
      messages := [{ role := "user", content := "round trip JFK to LHR on 2025-07-10" }] } rfl
  exact ⟨h.1.trans rfl, h.2.1, h.2.2⟩

/-- C4 counterexample: round_trip with duration 1 from the parseable
departure date 9999-12-31 does not yield a body with an appended return
leg; the formatter fails with the date-overflow error
(`datetime + timedelta` cannot pass year 9999). -/
theorem C4_counterexample :
    format_flight_offers_body "USD" "JFK" "LHR" "9999-12-31" "10:00:00" "ADULT" 3
        "ECONOMY" "MOST_SEGMENTS" none "round_trip" (some 1)
      = Except.error DateError.overflow ∧
    strptimeYMD "9999-12-31".data = some (9999, 12, 31) :=
  ⟨rfl, rfl⟩

/-- C4 (amended): for parameters whose departure date parses as
`YYYY-MM-DD` and whose computed return date (for a round trip with a
duration) stays within year 9999, the body contains the outbound leg
origin → destination on the given date with the default time 10:00:00,
followed — exactly when the trip is round_trip with a duration present —
by one return leg destination → origin dated departure plus duration
days, with the same default time. -/
theorem C4_amended_thm (cc o dst dd tv : String) (mx : Nat) (cb cv : String)
    (src : Option (List String)) (tt : String) (dur : Option Nat) (dep : Date)
    (hparse : strptimeYMD dd.data = some dep)
    (hrange : tt = "round_trip" → dur ≠ none → (addDays (dur.getD 0) dep).1 ≤ 9999) :
    (format_flight_offers_body cc o dst dd "10:00:00" tv mx cb cv src tt dur).map
        (fun b => b.originDestinations) =
      Except.ok
        ({ id := "1", originLocationCode := o, destinationLocationCode := dst,
           departureDateTimeRange := { date := dd, time := "10:00:00" } } ::
         (if tt = "round_trip" ∧ dur ≠ none then
            [{ id := "2", originLocationCode := dst, destinationLocationCode := o,
               departureDateTimeRange :=
                 { date := String.mk (fmtDate (addDays (dur.getD 0) dep)),
                   time := "10:00:00" } }]
          else [])) := by
  by_cases ht : tt = "round_trip"
  · cases dur with
    | none => simp [format_flight_offers_body, ht, Except.map]
    | some k =>
      have hb : (addDays k dep).1 ≤ 9999 := by
        simpa using hrange ht (by simp)
      simp [format_flight_offers_body, ht, hparse, hb, Except.map]
  · simp [format_flight_offers_body, ht, Except.map]

/-- Witness for C4: round_trip, duration 5, departure 2025-06-01 gives
the outbound leg and the return leg dated 2025-06-06. -/
theorem C4_witness :
    (format_flight_offers_body "USD" "JFK" "LHR" "2025-06-01" "10:00:00" "ADULT" 3
        "ECONOMY" "MOST_SEGMENTS" none "round_trip" (some 5)).map
        (fun b => b.originDestinations) =
      Except.ok
        [{ id := "1", originLocationCode := "JFK", destinationLocationCode := "LHR",
           departureDateTimeRange := { date := "2025-06-01", time := "10:00:00" } },
         { id := "2", originLocationCode := "LHR", destinationLocationCode := "JFK",
           departureDateTimeRange := { date := "2025-06-06", time := "10:00:00" } }] := by
  have h := C4_amended_thm "USD" "JFK" "LHR" "2025-06-01" "ADULT" 3 "ECONOMY"
    "MOST_SEGMENTS" none "round_trip" (some 5) (2025, 6, 1) rfl
    (fun _ _ => by decide)
  exact h.trans (by rfl)

/-- C5 counterexample: the utterance "13/45/2025 or 12/25/2025" contains
the valid `MM/DD/YYYY` date 12/25/2025, but the extractor sets no
departure date: the pattern's first match 13/45/2025 fails to parse, the
whole pattern is skipped, and no later pattern matches. -/
theorem C5_counterexample :
    (extract_flight_info "13/45/2025 or 12/25/2025" initialState).departure_date = none ∧
    findall (matchMDY '/') "13/45/2025 or 12/25/2025".data
      = ["13/45/2025".data, "12/25/2025".data] ∧
    strptimeMDY '/' "12/25/2025".data = some (2025, 12, 25) :=
  ⟨rfl, rfl, rfl⟩

/-- C5 (amended): the extractor sets `departure_date` by trying the
patterns in order `YYYY-MM-DD`, `MM/DD/YYYY`, `MM-DD-YYYY`, using only
the first matched date string of each pattern and skipping a pattern
whose first match fails to parse; `departure_date` is set, normalized to
`YYYY-MM-DD`, exactly when some pattern's first match parses (so an
utterance can contain a valid date and still set nothing, when an
earlier malformed match of the same pattern shadows it).  Formally: the
extractor's date field equals the spec-worded search in which each
pattern's first match is parsed with that pattern's own format. -/
theorem C5_amended_thm (u : String) (s : FlightAssistantState) :
    (extract_flight_info u s).departure_date = specDateExtract u := by
  show (dateLoop date_patterns u.data).map String.mk
      = (specDateLoop specPatternParsers u.data).map String.mk
  rw [dateLoop_eq_specDate]

/-- C9 counterexample: a parseable departure date (9999-12-31) with
round_trip and a duration makes the formatter fail with the overflow
error — a failure that is not the unparseable-date error, while the
claim allows failure only for unparseable dates. -/
theorem C9_counterexample :
    format_flight_offers_body "USD" "CAI" "DXB" "9999-12-31" "10:00:00" "ADULT" 3
        "ECONOMY" "MOST_SEGMENTS" none "round_trip" (some 2)
      = Except.error DateError.overflow ∧
    strptimeYMD "9999-12-31".data = some (9999, 12, 31) ∧
    (Except.error DateError.overflow : Except DateError FlightOffersBody)
      ≠ Except.error (DateError.unparseable "9999-12-31") :=
  ⟨rfl, rfl, by simp⟩

/-- C9 (amended): the formatter fails with the unparseable-date error
exactly when the trip is round_trip with a duration present and the
departure date does not parse as `YYYY-MM-DD`; it fails with the
date-overflow error exactly when the trip is round_trip and the parsed
departure date plus the duration passes year 9999; in every other case
(including every one_way request) it returns a body without error. -/
theorem C9_amended_thm (cc o dst dd dt tv : String) (mx : Nat) (cb cv : String)
    (src : Option (List String)) (tt : String) (dur : Option Nat) :
    ((∃ m, format_flight_offers_body cc o dst dd dt tv mx cb cv src tt dur
        = Except.error (DateError.unparseable m))
      ↔ (tt = "round_trip" ∧ dur ≠ none ∧ strptimeYMD dd.data = none)) ∧
    ((format_flight_offers_body cc o dst dd dt tv mx cb cv src tt dur
        = Except.error DateError.overflow)
      ↔ (tt = "round_trip" ∧ ∃ k dep, dur = some k ∧ strptimeYMD dd.data = some dep
          ∧ 9999 < (addDays k dep).1)) ∧
    ((∃ b, format_flight_offers_body cc o dst dd dt tv mx cb cv src tt dur
        = Except.ok b)
      ↔ ¬(tt = "round_trip" ∧ dur ≠ none ∧
          (strptimeYMD dd.data = none ∨
            ∃ k dep, dur = some k ∧ strptimeYMD dd.data = some dep
              ∧ 9999 < (addDays k dep).1))) := by
  by_cases ht : tt = "round_trip"
  · cases dur with
    | none => simp [format_flight_offers_body, ht]
    | some k =>
      cases hp : strptimeYMD dd.data with
      | none => simp [format_flight_offers_body, ht, hp]
      | some dep =>
        by_cases hb : (addDays k dep).1 ≤ 9999
        · simp [format_flight_offers_body, ht, hp, hb, Nat.not_lt.mpr hb]
        · simp [format_flight_offers_body, ht, hp, hb, Nat.lt_of_not_le hb]
  · simp [format_flight_offers_body, ht]

end TravelGraph
